import Mathlib

/-!
Shallow embedding of the potencia-apis lambdas:
  - src/lambda-verifier/lambda_function.py  (admission controller)
  - src/lambda-main/lambda_function.py      (processor) and models.py
  - src/lambda-authorizer/lambda_function.py

External effects (DynamoDB, SQS, Secrets Manager, the Airtable HTTP call)
are modelled by explicit state passing plus an environment that prescribes
the outcome of each fallible call.  Machine behaviour of DynamoDB that the
code relies on is modelled where the code exercises it: `update_item`
validates the provided key attribute names against the table's key schema
(the schema of the `matches-queue` table is the single partition key
`MatchComboId`, as established by the `get_item` call in the verifier and
the `update_item` call in the processor's `update_dynamodb_status`).
-/

namespace Potencia

/-- Lifecycle status values stored in the `Status` attribute. -/
inductive Status
  | PENDING
  | PROCESSING
  | COMPLETED
  | FAILED
deriving DecidableEq, Repr

/-- A JSON value appearing in a time-slot field of the submission body:
the pydantic validator `validate_time_slots` accepts a string or a list of
strings and rejects anything else. -/
inductive JsonVal
  | str (s : String)
  | list (l : List String)
  | other
deriving DecidableEq, Repr

/-- The submission body (the Softr webhook payload).  Only the fields the
code inspects are modelled; `none` means the key is absent from the JSON
object.  The body is stored and forwarded verbatim. -/
structure PBody where
  approvalStatus : Option String
  learner : Option String
  tutor : Option String
  learnerSlots : Option JsonVal
  tutorSlots : Option JsonVal
deriving DecidableEq, Repr

/-- A `matches-queue` item.  `none` fields are attributes absent from the
item (an item created by a bare `update_item` upsert has only the key,
the status and possibly an error message). -/
structure Entry where
  status : Status
  matchTimestamp : Option String
  tableName : Option String
  requestBody : Option PBody
  matchRequestExpiry : Option Nat
  errorMessage : Option String
deriving DecidableEq, Repr

/-- The DynamoDB table contents, keyed by `MatchComboId`. -/
abbrev Store := List (String × Entry)

def Store.lookup : Store → String → Option Entry
  | [], _ => none
  | (k', e) :: rest, k => if k' = k then some e else Store.lookup rest k

/-- Replace the item under `k`, or add it. -/
def Store.insert : Store → String → Entry → Store
  | [], k, e => [(k, e)]
  | (k', e') :: rest, k, e =>
      if k' = k then (k, e) :: rest else (k', e') :: Store.insert rest k e

/-- Key schema of the `matches-queue` table: a single partition key. -/
def matchesQueueKeySchema : List String := ["MatchComboId"]

/-- Message of the ValidationException DynamoDB raises when the key map
handed to `update_item` does not match the table's key schema. -/
def dynamoKeyValidationMsg : String :=
  "The provided key element does not match the schema"

/-- Python truthiness check used by `if not error_message:` style guards:
`none` and the empty string are falsy. -/
def errTruthy (err : Option String) : Bool :=
  match err with
  | none => false
  | some s => s ≠ ""

/-- The effect of a valid status update on the table: an upsert that
creates the item when absent.  `err` is set only when truthy, matching
the `if error_message:` guard of `update_dynamodb_status`. -/
def applyStatusUpdate (s : Store) (k : String) (st : Status)
    (err : Option String) : Store :=
  match Store.lookup s k with
  | some e =>
      Store.insert s k
        { e with status := st,
                 errorMessage := if errTruthy err then err else e.errorMessage }
  | none =>
      Store.insert s k
        ⟨st, none, none, none, none, if errTruthy err then err else none⟩

/-- DynamoDB `update_item` with expression `SET Status (, ErrorMessage)`.
`availErr = some m` models an infrastructure failure (the call raises `m`).
Otherwise the key attribute names are validated against the table schema;
a mismatch raises a ValidationException, and a valid update is applied as
an upsert. -/
def dynamo_update_item (availErr : Option String) (s : Store)
    (keyAttrNames : List String) (k : String) (st : Status)
    (err : Option String) : Except String Store :=
  match availErr with
  | some m => .error m
  | none =>
    if keyAttrNames = matchesQueueKeySchema then
      .ok (applyStatusUpdate s k st err)
    else .error dynamoKeyValidationMsg

/-- One store call made by a handler, recorded in the trace whether or not
it succeeded. -/
inductive StoreOp
  | get (k : String)
  | put (k : String) (e : Entry)
  | update (keyAttrNames : List String) (k : String) (st : Status) (err : Option String)
deriving DecidableEq, Repr

/-- The status a store operation writes, if it is a write. -/
def StoreOp.statusWritten : StoreOp → Option Status
  | .get _ => none
  | .put _ e => some e.status
  | .update _ _ st _ => some st

/-! ## Admission controller (src/lambda-verifier/lambda_function.py) -/

/-- The dedup key: `f"{learner}#{tutor}"` (line 53 of the verifier). -/
def dedupKey (learner tutor : String) : String :=
  learner ++ "#" ++ tutor

/-- Python truthiness of `body.get('Learner')`: absent or empty is falsy. -/
def falsy (o : Option String) : Bool :=
  match o with
  | none => true
  | some s => s = ""

/-- The incoming API Gateway event, after JSON parsing. -/
structure Event where
  httpMethod : String
  tableName : String
  body : PBody
deriving DecidableEq, Repr

/-- Outcomes of the external calls the verifier makes, prescribed by the
environment: `some m` means the call raises with message `m`. -/
structure VerifierEnv where
  getError : Option String
  putError : Option String
  queueUrl : Option String
  sqsError : Option String
  updateError : Option String
deriving DecidableEq, Repr

/-- The JSON body of the HTTP response (only the fields the code emits). -/
structure Response where
  statusCode : Nat
  message : String
  matchId : Option String
  status : Option String
  error : Option String
deriving DecidableEq, Repr

/-- One SQS `send_message` that went through. -/
structure QueueSend where
  queueUrl : String
  body : PBody
  matchComboId : String
  tableName : String
deriving DecidableEq, Repr

structure VerifierResult where
  response : Response
  store : Store
  sends : List QueueSend
  ops : List StoreOp
deriving DecidableEq, Repr

/-- Does the deduplication check block the submission?  Mirrors
`'Item' in response and response['Item'].get('Status') in ['PENDING',
'PROCESSING']` (line 69 of the verifier). -/
def duplicateInFlight : Option Entry → Bool
  | some it => it.status = .PENDING || it.status = .PROCESSING
  | none => false

/-- The verifier handler.  `timestamp` stands for
`datetime.now(timezone.utc).isoformat()` and `nowEpoch` for the epoch
seconds used to compute the 24-hour TTL; both are inputs because the
clock is external. -/
def verifier_handler (env : VerifierEnv) (store : Store) (event : Event)
    (timestamp : String) (nowEpoch : Nat) : VerifierResult :=
  if event.httpMethod ≠ "POST" then
    { response := { statusCode := 405,
                    message := "Method " ++ event.httpMethod ++ " not allowed. Only POST requests are supported.",
                    matchId := none, status := none,
                    error := some "METHOD_NOT_ALLOWED" },
      store := store, sends := [], ops := [] }
  else if falsy event.body.learner || falsy event.body.tutor then
    { response := { statusCode := 400,
                    message := "Missing required fields: Learner and Tutor",
                    matchId := none, status := none,
                    error := some "MISSING_FIELDS" },
      store := store, sends := [], ops := [] }
  else
    let learner := (event.body.learner).getD ""
    let tutor := (event.body.tutor).getD ""
    let matchComboId := dedupKey learner tutor
    match env.getError with
    | some e =>
      { response := { statusCode := 503,
                      message := "Error Checking Dynamo DB",
                      matchId := some matchComboId, status := some "FAILED",
                      error := some e },
        store := store, sends := [], ops := [.get matchComboId] }
    | none =>
      if duplicateInFlight (Store.lookup store matchComboId) then
        { response := { statusCode := 409,
                        message := "Match request already exists",
                        matchId := some matchComboId, status := some "FAILED",
                        error := some "DUPLICATE_REQUEST" },
          store := store, sends := [], ops := [.get matchComboId] }
      else
        let newEntry : Entry :=
          { status := .PENDING,
            matchTimestamp := some timestamp,
            tableName := some event.tableName,
            requestBody := some event.body,
            matchRequestExpiry := some (nowEpoch + 86400),
            errorMessage := none }
        match env.putError with
        | some e =>
          -- put_item raised; the error is logged, re-raised, and turned
          -- into the generic 500 by the outer handler.
          { response := { statusCode := 500,
                          message := "Internal server error",
                          matchId := none, status := none, error := some e },
            store := store, sends := [],
            ops := [.get matchComboId, .put matchComboId newEntry] }
        | none =>
          let store1 := Store.insert store matchComboId newEntry
          let opsSoFar : List StoreOp := [.get matchComboId, .put matchComboId newEntry]
          let sqsErr : Option String :=
            match env.queueUrl with
            | none => some "SQS_QUEUE_URL environment variable not set"
            | some _ => env.sqsError
          match sqsErr with
          | none =>
            { response := { statusCode := 202,
                            message := "Request queued successfully",
                            matchId := some matchComboId,
                            status := some "PENDING", error := none },
              store := store1,
              sends := [{ queueUrl := (env.queueUrl).getD "",
                          body := event.body,
                          matchComboId := matchComboId,
                          tableName := event.tableName }],
              ops := opsSoFar }
          | some e =>
            -- send_message (or the queue-url lookup) raised: update the
            -- entry to FAILED — but with a key map of TWO attributes
            -- (MatchComboId and MatchTimestamp), lines 133-144.
            let updKey : List String := ["MatchComboId", "MatchTimestamp"]
            let updOps := opsSoFar ++ [.update updKey matchComboId .FAILED (some e)]
            match dynamo_update_item env.updateError store1 updKey matchComboId .FAILED (some e) with
            | .ok store2 =>
              -- the original exception is re-raised; outer handler → 500
              { response := { statusCode := 500,
                              message := "Internal server error",
                              matchId := none, status := none, error := some e },
                store := store2, sends := [], ops := updOps }
            | .error e2 =>
              -- update_item itself raised inside the except block; that
              -- exception propagates to the outer handler → 500
              { response := { statusCode := 500,
                              message := "Internal server error",
                              matchId := none, status := none, error := some e2 },
                store := store1, sends := [], ops := updOps }

/-! ## Payload mapping (src/lambda-main/models.py) -/

/-- `MatchInput`: the validated Softr payload for the matches table.
The time-slot fields have already been coerced by `validate_time_slots`. -/
structure MatchInput where
  approval_status : String
  learner : String
  tutor : String
  learner_available_time_slots : List String
  tutor_available_time_slots : List String
deriving DecidableEq, Repr

/-- The pydantic field validator on the time-slot fields: a bare string is
wrapped into a singleton list, a list passes through, anything else raises. -/
def validate_time_slots : JsonVal → Except String (List String)
  | .str s => .ok [s]
  | .list l => .ok l
  | .other => .error "Time slots must be a string or list of strings"

/-- Missing required aliases of `MatchInput`, in field declaration order
(the order pydantic reports them). -/
def missingAliases (b : PBody) : List String :=
  (if b.approvalStatus.isNone then ["Approval Status"] else []) ++
  (if b.learner.isNone then ["Learner"] else []) ++
  (if b.tutor.isNone then ["Tutor"] else []) ++
  (if b.learnerSlots.isNone then ["Learner Available Time Slots"] else []) ++
  (if b.tutorSlots.isNone then ["Tutor Available Time Slots"] else [])

/-- Validation of `MatchInput(**softr_data)` together with the error
rewriting of `convert_softr_to_airtable` (lines 185-198 of the processor):
missing fields produce the named-field message, any other validation
failure the generic one. -/
def MatchInput.fromBody (b : PBody) : Except String MatchInput :=
  match missingAliases b with
  | [] =>
    match b.approvalStatus, b.learner, b.tutor, b.learnerSlots, b.tutorSlots with
    | some ap, some l, some t, some ls, some ts =>
      match validate_time_slots ls, validate_time_slots ts with
      | .ok lslots, .ok tslots => .ok ⟨ap, l, t, lslots, tslots⟩
      | .error m, _ => .error ("Validation error for matches table: " ++ m)
      | _, .error m => .error ("Validation error for matches table: " ++ m)
    | _, _, _, _, _ => .error "Validation error for matches table: unreachable"
  | missing =>
    .error ("Missing required fields for matches table: " ++ String.intercalate ", " missing)

/-- The `Match` record sent to Airtable for the matches table. -/
structure Match where
  approval_status : String
  learner : List String
  tutor : List String
  overlapping_available_time_slots : List String
deriving DecidableEq, Repr

/-- `Match.from_input`.  The overlap is computed in Python as
`list(set(a) & set(b))`, whose element order is unspecified; the model
fixes the canonical representative that keeps the first occurrence order
of the learner list.  All properties about the field are stated up to
`toFinset`. -/
def Match.from_input (i : MatchInput) : Match :=
  { approval_status := i.approval_status,
    learner := [i.learner],
    tutor := [i.tutor],
    overlapping_available_time_slots :=
      (i.learner_available_time_slots.dedup).filter
        (fun x => i.tutor_available_time_slots.contains x) }

/-- The `fields` object of one Airtable record. -/
inductive AirtableFields
  | matchFields (m : Match)
  | passthrough (b : PBody)
deriving DecidableEq, Repr

/-- The Airtable API request body: `{"records": [{"fields": ...}]}`. -/
structure AirtableRequest where
  records : List AirtableFields
deriving DecidableEq, Repr

/-- Python `str.lower`, written over the character list so that it
evaluates inside the kernel. -/
def strToLower (s : String) : String := ⟨s.data.map Char.toLower⟩

/-- `convert_softr_to_airtable`: the matches table goes through the Match
model, every other table is wrapped unchanged. -/
def convert_softr_to_airtable (softrData : PBody) (tableName : String) :
    Except String AirtableRequest :=
  if strToLower tableName = "matches" then
    match MatchInput.fromBody softrData with
    | .error e => .error e
    | .ok mi => .ok ⟨[.matchFields (Match.from_input mi)]⟩
  else
    .ok ⟨[.passthrough softrData]⟩

/-! ## Processor (src/lambda-main/lambda_function.py) -/

/-- Outcome of the `requests.post` call to Airtable. -/
inductive ApiOutcome
  | response (statusCode : Nat) (text : String)
  | transportError (msg : String)
deriving DecidableEq, Repr

/-- Result dict of `process_airtable_request`. -/
structure ProcessResult where
  success : Bool
  error : Option String
deriving DecidableEq, Repr

/-- `process_airtable_request`: convert the body, post to Airtable, and
fold every failure into a `success = false` result (the function catches
all of its own exceptions). -/
def process_airtable_request (tableName : String) (body : PBody)
    (api : ApiOutcome) : ProcessResult :=
  match convert_softr_to_airtable body tableName with
  | .error e => { success := false, error := some ("Validation error: " ++ e) }
  | .ok _ =>
    match api with
    | .response 200 _ => { success := true, error := none }
    | .response _ text =>
        { success := false, error := some ("Airtable API error: " ++ text) }
    | .transportError m =>
        { success := false, error := some ("Error processing request: " ++ m) }

/-- One SQS record as the processor sees it: `body = none` models a record
whose body is not parseable JSON (so `json.loads` raises), and the two
message attributes default to the empty string when absent. -/
structure SqsRecord where
  body : Option PBody
  tableName : String
  matchComboId : String
deriving DecidableEq, Repr

/-- Environment for one record: the prescribed outcome of each external
call made while handling it.  The booleans give the availability of the
store for each `update_dynamodb_status` call site (`true` = the write
goes through, `false` = it raises). -/
structure RecordWorld where
  processingOk : Bool
  config : Option (String × String)
  configUpdateOk : Bool
  apiOutcome : ApiOutcome
  finalOk : Bool
  exceptOk : Bool
deriving DecidableEq, Repr

/-- Per-record outcome, as observable in the logs. -/
inductive RecordOutcome
  | skippedMissingAttributes
  | skippedProcessingUpdateFailed
  | failedConfig
  | completed
  | failed
deriving DecidableEq, Repr

/-- Error message standing for `str(e)` of a failed boto3 `update_item`
call (raised out of `update_dynamodb_status`). -/
def updateRaiseMsg : String := "Error updating DynamoDB status"

/-- `update_dynamodb_status`: an unconditional upsert of `Status`
(and `ErrorMessage` when truthy) keyed by `MatchComboId` alone; it
re-raises any store failure. -/
def update_dynamodb_status (avail : Bool) (s : Store) (k : String)
    (st : Status) (err : Option String) : Except String Store :=
  dynamo_update_item (if avail then none else some updateRaiseMsg)
    s ["MatchComboId"] k st err

/-- Result of handling one record: `outcome = .ok o` means the loop
continues, `outcome = .error m` means an exception escaped the per-record
handling and aborts the whole batch.  `store` is the store as left
behind and `ops` the store calls attempted while handling the record. -/
structure StepResult where
  store : Store
  ops : List StoreOp
  outcome : Except String RecordOutcome
deriving Repr

/-- Did the per-record handling finish without an exception escaping, so
that the loop moves on to the next record? -/
def StepResult.continues (s : StepResult) : Bool :=
  match s.outcome with
  | .ok _ => true
  | .error _ => false

/-- The body of the `for record in records:` loop (lines 28-72 of the
processor). -/
def processRecord (store : Store) (r : SqsRecord) (w : RecordWorld) : StepResult :=
  match r.body with
  | none => ⟨store, [], .error "Expecting value: line 1 column 1 (char 0)"⟩
  | some body =>
    if r.tableName = "" || r.matchComboId = "" then
      ⟨store, [], .ok .skippedMissingAttributes⟩
    else
      let k := r.matchComboId
      let op1 : StoreOp := .update ["MatchComboId"] k .PROCESSING none
      match update_dynamodb_status w.processingOk store k .PROCESSING none with
      | .error _ => ⟨store, [op1], .ok .skippedProcessingUpdateFailed⟩
      | .ok s1 =>
        let configErr : Option String :=
          match w.config with
          | none => some "Failed to retrieve Airtable configuration"
          | some (token, baseId) =>
            if token = "" || baseId = "" then some "Missing Airtable token or base_id"
            else none
        match configErr with
        | some cerr =>
          let op2 : StoreOp := .update ["MatchComboId"] k .FAILED (some cerr)
          match update_dynamodb_status w.configUpdateOk s1 k .FAILED (some cerr) with
          | .ok s2 => ⟨s2, [op1, op2], .ok .failedConfig⟩
          | .error m => ⟨s1, [op1, op2], .error m⟩
        | none =>
          let result := process_airtable_request r.tableName body w.apiOutcome
          if result.success then
            let op2 : StoreOp := .update ["MatchComboId"] k .COMPLETED none
            match update_dynamodb_status w.finalOk s1 k .COMPLETED none with
            | .ok s2 => ⟨s2, [op1, op2], .ok .completed⟩
            | .error m =>
              -- the COMPLETED write raised inside the try; the except
              -- block records FAILED with the exception text
              let op3 : StoreOp := .update ["MatchComboId"] k .FAILED (some m)
              match update_dynamodb_status w.exceptOk s1 k .FAILED (some m) with
              | .ok s2 => ⟨s2, [op1, op2, op3], .ok .failed⟩
              | .error m2 => ⟨s1, [op1, op2, op3], .error m2⟩
          else
            let errText := (result.error).getD ""
            let op2 : StoreOp := .update ["MatchComboId"] k .FAILED (some errText)
            match update_dynamodb_status w.finalOk s1 k .FAILED (some errText) with
            | .ok s2 => ⟨s2, [op1, op2], .ok .failed⟩
            | .error m =>
              let op3 : StoreOp := .update ["MatchComboId"] k .FAILED (some m)
              match update_dynamodb_status w.exceptOk s1 k .FAILED (some m) with
              | .ok s2 => ⟨s2, [op1, op2, op3], .ok .failed⟩
              | .error m2 => ⟨s1, [op1, op2, op3], .error m2⟩

structure ProcResult where
  statusCode : Nat
  outcomes : List RecordOutcome
  ops : List StoreOp
  store : Store
deriving DecidableEq, Repr

/-- The loop over the batch, with the outer try of `lambda_handler`:
an exception escaping one record's handling stops the loop and the
handler returns 500. -/
def processor_run : List (SqsRecord × RecordWorld) → Store →
    List RecordOutcome → List StoreOp → ProcResult
  | [], store, outs, ops => ⟨200, outs, ops, store⟩
  | (r, w) :: rest, store, outs, ops =>
    let step := processRecord store r w
    match step.outcome with
    | .ok outcome => processor_run rest step.store (outs ++ [outcome]) (ops ++ step.ops)
    | .error _ => ⟨500, outs, ops ++ step.ops, step.store⟩

/-- The processor's `lambda_handler` over a batch of SQS records. -/
def processor_handler (batch : List (SqsRecord × RecordWorld)) (store : Store) :
    ProcResult :=
  processor_run batch store [] []

/-! ## Authorizer (src/lambda-authorizer/lambda_function.py) -/

/-- Outcome of reading the secret: on success, the parsed secret's
`api_key` entry (`none` when the JSON object has no such key, in which
case `.get('api_key', '')` yields the empty string); `failure` covers
every exception path (Secrets Manager error, JSON error, and so on),
all of which deny. -/
inductive SecretFetch
  | success (apiKey : Option String)
  | failure
deriving DecidableEq, Repr

inductive Effect
  | Allow
  | Deny
deriving DecidableEq, Repr

/-- Drop the seven characters of an optional leading "Bearer " marker:
`if token.startswith('Bearer '): token = token[7:]`.  Written over the
character list so that it evaluates inside the kernel. -/
def stripBearer (t : String) : String :=
  if List.isPrefixOf ("Bearer ").data t.data then ⟨t.data.drop 7⟩ else t

/-- The authorizer handler, reduced to the effect of the returned policy
(the policy document is Allow or Deny on the method ARN; every exception
branch returns Deny). -/
def authorizer_handler (authorizationToken : String) (fetch : SecretFetch) : Effect :=
  let token := stripBearer authorizationToken
  match fetch with
  | .failure => .Deny
  | .success apiKey =>
    let expected := apiKey.getD ""
    if token = expected && token ≠ "" then .Allow else .Deny

/-! ## Concrete fixtures used to evaluate the model -/

/-- A full, valid submission body. -/
def exampleBody : PBody :=
  ⟨some "Approved", some "L1", some "T1",
   some (.list ["MonA", "MonB"]), some (.list ["MonA"])⟩

def exampleEvent : Event := ⟨"POST", "matches", exampleBody⟩

/-- Environment where every external call succeeds. -/
def okEnv : VerifierEnv := ⟨none, none, some "queue-url", none, none⟩

/-- Environment where only the SQS send fails. -/
def sqsFailEnv : VerifierEnv := ⟨none, none, some "queue-url", some "sqs send failed", none⟩

def completedEntry : Entry :=
  ⟨.COMPLETED, some "t0", some "matches", some exampleBody, some 100, none⟩

def pendingEntry : Entry :=
  ⟨.PENDING, some "t0", some "matches", some exampleBody, some 100, none⟩

def exampleRecord : SqsRecord := ⟨some exampleBody, "matches", "L1#T1"⟩

def siblingRecord : SqsRecord := ⟨some exampleBody, "matches", "L2#T2"⟩

/-- World where every call a record makes succeeds and Airtable answers 200. -/
def okWorld : RecordWorld := ⟨true, some ("tok", "base"), true, .response 200 "ok", true, true⟩

/-- World where the secrets fetch fails and the FAILED status write after
it fails as well. -/
def configFailWorld : RecordWorld := ⟨true, none, false, .response 200 "ok", true, true⟩

/-- World where the COMPLETED status write and the FAILED status write in
the except block both fail. -/
def finalFailWorld : RecordWorld :=
  ⟨true, some ("tok", "base"), true, .response 200 "ok", false, false⟩

/-- World where the Airtable call fails but every status write succeeds. -/
def apiFailWorld : RecordWorld :=
  ⟨true, some ("tok", "base"), true, .response 422 "unprocessable", true, true⟩

/-- A record's handling cannot raise out of the loop: its body parses, the
status write after a configuration failure would succeed, and the final
status write (or, failing that, the one in the except block) succeeds. -/
def recordSafe (rw : SqsRecord × RecordWorld) : Prop :=
  rw.1.body.isSome = true ∧ rw.2.configUpdateOk = true ∧
    (rw.2.finalOk = true ∨ rw.2.exceptOk = true)

instance (rw : SqsRecord × RecordWorld) : Decidable (recordSafe rw) := by
  unfold recordSafe; infer_instance

/-! ## Theorems -/

/-- C3 counterexample: the claim says swapping the two identity fields
always yields a different dedup key; the distinct pair of field values
"A" and "A#A" collides under the swap, since the separator also occurs
inside the fields. -/
theorem dedup_key_swap_collision :
    dedupKey "A" "A#A" = dedupKey "A#A" "A" ∧ ("A" : String) ≠ "A#A" := by
  decide

/-- C9: the dedup key derivation is not injective on identity-field
pairs: ("A#B", "C") and ("A", "B#C") are distinct pairs that both derive
the key "A#B#C". -/
theorem dedup_key_not_injective :
    (∃ p q : String × String, p ≠ q ∧ dedupKey p.1 p.2 = dedupKey q.1 q.2) ∧
    dedupKey "A#B" "C" = "A#B#C" ∧ dedupKey "A" "B#C" = "A#B#C" := by
  refine ⟨⟨("A#B", "C"), ("A", "B#C"), ?_, ?_⟩, ?_, ?_⟩ <;> decide

/-- C4: with an empty store and a valid submission, a failing SQS send
leaves the entry at PENDING, not FAILED: the `update_item` recording the
failure passes a two-attribute key that does not match the table's key
schema (the single partition key used by the PENDING write and by every
other call site), so it raises instead of updating, and the handler
answers 500 with the validation error. -/
theorem enqueue_failure_leaves_entry_pending :
    (Store.lookup (verifier_handler sqsFailEnv [] exampleEvent "t1" 50).store
        "L1#T1").map Entry.status = some .PENDING ∧
    (verifier_handler sqsFailEnv [] exampleEvent "t1" 50).response.statusCode = 500 ∧
    (verifier_handler sqsFailEnv [] exampleEvent "t1" 50).response.error
      = some dynamoKeyValidationMsg ∧
    (verifier_handler sqsFailEnv [] exampleEvent "t1" 50).ops.contains
      (.update ["MatchComboId", "MatchTimestamp"] "L1#T1" .FAILED (some "sqs send failed"))
      = true ∧
    ["MatchComboId", "MatchTimestamp"] ≠ matchesQueueKeySchema := by
  decide

/-- C2 counterexample: starting from a store whose entry for "L1#T1" is
COMPLETED, one processor invocation on a redelivered work item for the
same key leaves the entry at PROCESSING — the PROCESSING transition is an
unconditional upsert and overwrites the terminal status. -/
theorem processor_overwrites_completed_status :
    (Store.lookup [("L1#T1", completedEntry)] "L1#T1").map Entry.status
      = some .COMPLETED ∧
    (Store.lookup (processor_handler [(exampleRecord, configFailWorld)]
        [("L1#T1", completedEntry)]).store "L1#T1").map Entry.status
      = some .PROCESSING := by
  decide

/-- C7 counterexample: in a batch of two records, the first record's
COMPLETED status write fails and the FAILED write in the except block
fails as well; the exception escapes the loop, the handler returns 500,
and the sibling record "L2#T2" is never attempted — no outcome is
recorded for it and no store call mentions its key. -/
theorem final_status_write_failure_aborts_batch :
    (processor_handler [(exampleRecord, finalFailWorld), (siblingRecord, okWorld)]
        []).statusCode = 500 ∧
    (processor_handler [(exampleRecord, finalFailWorld), (siblingRecord, okWorld)]
        []).outcomes = [] ∧
    (processor_handler [(exampleRecord, finalFailWorld), (siblingRecord, okWorld)]
        []).ops =
      [.update ["MatchComboId"] "L1#T1" .PROCESSING none,
       .update ["MatchComboId"] "L1#T1" .COMPLETED none,
       .update ["MatchComboId"] "L1#T1" .FAILED (some updateRaiseMsg)] := by
  decide

/-- C1: when the store holds an entry for the submission's dedup key with
status PENDING or PROCESSING, the admission handler answers 409 with
error DUPLICATE_REQUEST and the dedup key as matchId, and its only store
or queue interaction is the one read: the store is returned unchanged and
nothing is sent to the queue. -/
theorem duplicate_inflight_rejected_without_mutation
    (env : VerifierEnv) (store : Store) (event : Event) (ts : String) (now : Nat)
    (l t : String) (e : Entry)
    (hm : event.httpMethod = "POST")
    (hl : event.body.learner = some l) (hl2 : l ≠ "")
    (ht : event.body.tutor = some t) (ht2 : t ≠ "")
    (hget : env.getError = none)
    (hfound : Store.lookup store (dedupKey l t) = some e)
    (hst : e.status = .PENDING ∨ e.status = .PROCESSING) :
    verifier_handler env store event ts now =
      { response := { statusCode := 409,
                      message := "Match request already exists",
                      matchId := some (dedupKey l t), status := some "FAILED",
                      error := some "DUPLICATE_REQUEST" },
        store := store, sends := [], ops := [.get (dedupKey l t)] } := by
  have hfal : falsy (some l) = false := by
    simp [falsy, hl2]
  have hfat : falsy (some t) = false := by
    simp [falsy, ht2]
  have hdup : duplicateInFlight (Store.lookup store (dedupKey l t)) = true := by
    rw [hfound]; rcases hst with h | h <;> simp [duplicateInFlight, h]
  simp [verifier_handler, hm, hfal, hfat, hl, ht, hget, hdup]

/-- Witness for C1: a concrete in-flight duplicate is rejected. -/
theorem duplicate_inflight_rejected_without_mutation_instance :
    verifier_handler okEnv [("L1#T1", pendingEntry)] exampleEvent "t1" 50 =
      { response := { statusCode := 409,
                      message := "Match request already exists",
                      matchId := some (dedupKey "L1" "T1"), status := some "FAILED",
                      error := some "DUPLICATE_REQUEST" },
        store := [("L1#T1", pendingEntry)], sends := [],
        ops := [.get (dedupKey "L1" "T1")] } :=
  duplicate_inflight_rejected_without_mutation okEnv _ _ _ _ "L1" "T1"
    pendingEntry rfl rfl (by decide) rfl (by decide) rfl (by decide) (Or.inl rfl)

/-- C8: a submission missing the Learner or the Tutor field is answered
400 with error MISSING_FIELDS, and the handler performs no store read, no
store write and no queue send. -/
theorem missing_fields_rejected_without_interaction
    (env : VerifierEnv) (store : Store) (event : Event) (ts : String) (now : Nat)
    (hm : event.httpMethod = "POST")
    (habs : event.body.learner = none ∨ event.body.tutor = none) :
    verifier_handler env store event ts now =
      { response := { statusCode := 400,
                      message := "Missing required fields: Learner and Tutor",
                      matchId := none, status := none,
                      error := some "MISSING_FIELDS" },
        store := store, sends := [], ops := [] } := by
  have hfal : (falsy event.body.learner || falsy event.body.tutor) = true := by
    rcases habs with h | h <;> simp [falsy, h]
  simp [verifier_handler, hm, hfal]

/-- Witness for C8: a concrete submission without a Tutor field is
rejected with 400 and no interaction. -/
theorem missing_fields_rejected_without_interaction_instance :
    verifier_handler okEnv [] ⟨"POST", "matches",
        ⟨some "Approved", some "L1", none, none, none⟩⟩ "t1" 50 =
      { response := { statusCode := 400,
                      message := "Missing required fields: Learner and Tutor",
                      matchId := none, status := none,
                      error := some "MISSING_FIELDS" },
        store := [], sends := [], ops := [] } :=
  missing_fields_rejected_without_interaction okEnv [] _ "t1" 50 rfl (Or.inr rfl)

/-- C5: when the store holds no entry for the dedup key, or an entry with
terminal status COMPLETED or FAILED, the admission handler proceeds: it
writes a fresh PENDING entry over the store key, sends one work item to
the queue, and answers 202 with status PENDING. -/
theorem terminal_or_absent_admitted
    (env : VerifierEnv) (store : Store) (event : Event) (ts : String) (now : Nat)
    (l t u : String)
    (hm : event.httpMethod = "POST")
    (hl : event.body.learner = some l) (hl2 : l ≠ "")
    (ht : event.body.tutor = some t) (ht2 : t ≠ "")
    (hget : env.getError = none) (hput : env.putError = none)
    (hq : env.queueUrl = some u) (hsqs : env.sqsError = none)
    (hprev : Store.lookup store (dedupKey l t) = none ∨
      ∃ e, Store.lookup store (dedupKey l t) = some e ∧
        (e.status = .COMPLETED ∨ e.status = .FAILED)) :
    verifier_handler env store event ts now =
      { response := { statusCode := 202,
                      message := "Request queued successfully",
                      matchId := some (dedupKey l t), status := some "PENDING",
                      error := none },
        store := Store.insert store (dedupKey l t)
          { status := .PENDING, matchTimestamp := some ts,
            tableName := some event.tableName, requestBody := some event.body,
            matchRequestExpiry := some (now + 86400), errorMessage := none },
        sends := [{ queueUrl := u, body := event.body,
                    matchComboId := dedupKey l t, tableName := event.tableName }],
        ops := [.get (dedupKey l t),
                .put (dedupKey l t)
                  { status := .PENDING, matchTimestamp := some ts,
                    tableName := some event.tableName, requestBody := some event.body,
                    matchRequestExpiry := some (now + 86400), errorMessage := none }] } := by
  have hfal : falsy (some l) = false := by
    simp [falsy, hl2]
  have hfat : falsy (some t) = false := by
    simp [falsy, ht2]
  have hdup : duplicateInFlight (Store.lookup store (dedupKey l t)) = false := by
    rcases hprev with h | ⟨e, he, hst⟩
    · rw [h]; simp [duplicateInFlight]
    · rw [he]; rcases hst with h | h <;> simp [duplicateInFlight, h]
  simp [verifier_handler, hm, hfal, hfat, hl, ht, hget, hput, hq, hsqs, hdup]

/-- Witness for C5: a concrete submission whose previous entry is
COMPLETED is admitted again. -/
theorem terminal_or_absent_admitted_instance :
    verifier_handler okEnv [("L1#T1", completedEntry)] exampleEvent "t1" 50 =
      { response := { statusCode := 202,
                      message := "Request queued successfully",
                      matchId := some (dedupKey "L1" "T1"), status := some "PENDING",
                      error := none },
        store := Store.insert [("L1#T1", completedEntry)] (dedupKey "L1" "T1")
          { status := .PENDING, matchTimestamp := some "t1",
            tableName := some "matches", requestBody := some exampleBody,
            matchRequestExpiry := some (50 + 86400), errorMessage := none },
        sends := [{ queueUrl := "queue-url", body := exampleBody,
                    matchComboId := dedupKey "L1" "T1", tableName := "matches" }],
        ops := [.get (dedupKey "L1" "T1"),
                .put (dedupKey "L1" "T1")
                  { status := .PENDING, matchTimestamp := some "t1",
                    tableName := some "matches", requestBody := some exampleBody,
                    matchRequestExpiry := some (50 + 86400), errorMessage := none }] } :=
  terminal_or_absent_admitted okEnv _ _ _ _ "L1" "T1" "queue-url"
    rfl rfl (by decide) rfl (by decide) rfl rfl rfl rfl
    (Or.inr ⟨completedEntry, by decide, Or.inl rfl⟩)

/-- Splitting a character list at a separator that occurs in neither
left part is unambiguous. -/
theorem hashSplit : ∀ (L L' T T' : List Char),
    '#' ∉ L → '#' ∉ L' → L ++ '#' :: T = L' ++ '#' :: T' → L = L' ∧ T = T'
  | [], [], T, T', _, _, h => by simpa using h
  | [], b :: L'', T, T', _, hL', h => by
      simp only [List.nil_append, List.cons_append, List.cons.injEq] at h
      exact absurd (by rw [h.1]; exact List.mem_cons_self _ _) hL'
  | a :: L0, [], T, T', hL, _, h => by
      simp only [List.cons_append, List.nil_append, List.cons.injEq] at h
      exact absurd (by rw [← h.1]; exact List.mem_cons_self _ _) hL
  | a :: L0, b :: L0', T, T', hL, hL', h => by
      simp only [List.cons_append, List.cons.injEq] at h
      have ih := hashSplit L0 L0' T T'
        (fun hm => hL (List.mem_cons_of_mem _ hm))
        (fun hm => hL' (List.mem_cons_of_mem _ hm)) h.2
      exact ⟨by rw [h.1, ih.1], ih.2⟩

/-- C3 amended: the dedup key derivation is deterministic, and swapping
the two identity fields yields a different key whenever the two fields
are distinct and neither contains the separator character.  (Fields
containing the separator can collide under the swap, see the
counterexample.) -/
theorem dedup_key_deterministic_and_swap_distinct :
    (∀ l t l' t' : String, l = l' → t = t' → dedupKey l t = dedupKey l' t') ∧
    (∀ l t : String, '#' ∉ l.data → '#' ∉ t.data → l ≠ t →
      dedupKey l t ≠ dedupKey t l) := by
  constructor
  · intro l t l' t' h1 h2
    rw [h1, h2]
  · intro l t hl ht hne heq
    have hsep : (("#" : String)).data = ['#'] := rfl
    have hdata : l.data ++ '#' :: t.data = t.data ++ '#' :: l.data := by
      have h := congrArg String.data heq
      simpa [dedupKey, String.data_append, hsep] using h
    exact hne (String.ext (hashSplit l.data t.data t.data l.data hl ht hdata).1)

/-- Witness for C3 amended: two separator-free distinct names give
different keys in the two orders. -/
theorem dedup_key_deterministic_and_swap_distinct_instance :
    dedupKey "Alice" "Bob" ≠ dedupKey "Bob" "Alice" :=
  dedup_key_deterministic_and_swap_distinct.2 "Alice" "Bob"
    (by decide) (by decide) (by decide)

/-- Every store call made while handling one record writes PROCESSING,
COMPLETED or FAILED — never PENDING. -/
theorem processRecord_no_pending_write (store : Store) (r : SqsRecord)
    (w : RecordWorld) :
    ∀ op ∈ (processRecord store r w).ops, op.statusWritten ≠ some .PENDING := by
  intro op hop
  simp only [processRecord] at hop
  repeat' split at hop
  all_goals simp only [List.mem_cons, List.not_mem_nil, or_false] at hop
  all_goals repeat' rcases hop with hop | hop
  all_goals simp_all [StoreOp.statusWritten]

theorem processor_run_no_pending_write :
    ∀ (batch : List (SqsRecord × RecordWorld)) (store : Store)
      (outs : List RecordOutcome) (ops : List StoreOp),
      (∀ op ∈ ops, op.statusWritten ≠ some .PENDING) →
      ∀ op ∈ (processor_run batch store outs ops).ops,
        op.statusWritten ≠ some .PENDING
  | [], _, _, ops, hacc => by
      simpa [processor_run] using hacc
  | (r, w) :: rest, store, outs, ops, hacc => by
      have happ : ∀ op ∈ ops ++ (processRecord store r w).ops,
          op.statusWritten ≠ some .PENDING := by
        intro op hop
        rcases List.mem_append.mp hop with h | h
        · exact hacc op h
        · exact processRecord_no_pending_write store r w op h
      simp only [processor_run]
      cases hh : (processRecord store r w).outcome with
      | ok outcome =>
          exact processor_run_no_pending_write rest _ _ _ happ
      | error m =>
          simpa using happ

/-- C2 amended: the monotonicity claim fails on redelivery (the
PROCESSING transition is an unconditional upsert, see the
counterexample), but its PENDING half survives: no store write the
processor ever performs — attempted or applied, on any batch, from any
store state — sets an entry's status to PENDING.  Only the admission
controller's fresh-entry write creates PENDING. -/
theorem processor_never_writes_pending
    (batch : List (SqsRecord × RecordWorld)) (store : Store) :
    ∀ op ∈ (processor_handler batch store).ops,
      op.statusWritten ≠ some .PENDING :=
  processor_run_no_pending_write batch store [] [] (by simp)

/-- Witness for C2 amended: the PROCESSING write of a concrete run is in
the trace and does not write PENDING. -/
theorem processor_never_writes_pending_instance :
    StoreOp.statusWritten (.update ["MatchComboId"] "L1#T1" .PROCESSING none)
      ≠ some .PENDING :=
  processor_never_writes_pending [(exampleRecord, okWorld)] []
    (.update ["MatchComboId"] "L1#T1" .PROCESSING none) (by decide)

theorem update_dynamodb_status_true (s : Store) (k : String) (st : Status)
    (err : Option String) :
    update_dynamodb_status true s k st err = .ok (applyStatusUpdate s k st err) := by
  simp [update_dynamodb_status, dynamo_update_item, matchesQueueKeySchema]

theorem update_dynamodb_status_false (s : Store) (k : String) (st : Status)
    (err : Option String) :
    update_dynamodb_status false s k st err = .error updateRaiseMsg := by
  simp [update_dynamodb_status, dynamo_update_item]

/-- A record whose unguarded status writes succeed (and whose body
parses) never lets an exception escape the loop. -/
theorem processRecord_safe_continues (store : Store) (r : SqsRecord)
    (w : RecordWorld) (hsafe : recordSafe (r, w)) :
    (processRecord store r w).continues = true := by
  obtain ⟨rb, rtn, rid⟩ := r
  obtain ⟨wp, wc, wcu, wapi, wf, we⟩ := w
  obtain ⟨hbody, hcfg, hfin⟩ := hsafe
  simp only at hbody hcfg hfin
  cases rb with
  | none => simp at hbody
  | some body =>
    subst hcfg
    rcases hfin with hf | he
    · subst hf
      cases wp <;> cases we <;>
        simp only [processRecord, update_dynamodb_status_true,
          update_dynamodb_status_false] <;>
        (repeat' split) <;>
        simp [StepResult.continues]
    · subst he
      cases wp <;> cases wf <;>
        simp only [processRecord, update_dynamodb_status_true,
          update_dynamodb_status_false] <;>
        (repeat' split) <;>
        simp [StepResult.continues]

theorem processor_run_all_attempted :
    ∀ (batch : List (SqsRecord × RecordWorld)) (store : Store)
      (outs : List RecordOutcome) (ops : List StoreOp),
      (∀ rw ∈ batch, recordSafe rw) →
      (processor_run batch store outs ops).statusCode = 200 ∧
      (processor_run batch store outs ops).outcomes.length
        = outs.length + batch.length
  | [], _, _, _, _ => by simp [processor_run]
  | (r, w) :: rest, store, outs, ops, hsafe => by
      have hcont := processRecord_safe_continues store r w
        (hsafe (r, w) (List.mem_cons_self _ _))
      simp only [processor_run]
      cases hh : (processRecord store r w).outcome with
      | error m =>
          rw [StepResult.continues, hh] at hcont
          simp at hcont
      | ok outcome =>
          have ih := processor_run_all_attempted rest (processRecord store r w).store
            (outs ++ [outcome]) (ops ++ (processRecord store r w).ops)
            (fun rw hm => hsafe rw (List.mem_cons_of_mem _ hm))
          simpa [Nat.add_comm, Nat.add_assoc, Nat.add_left_comm] using ih

/-- C7 amended: one item's failure does not abort the processing of its
siblings as long as the failure is in the message attributes, the
PROCESSING store write, the configuration fetch, the payload mapping or
the downstream call — i.e. as long as the record's body parses and the
status writes recording the item's FAILED/COMPLETED outcome succeed.
(When such a final status write itself fails, the exception escapes the
loop and the remaining sibling items are not attempted, see the
counterexample.) -/
theorem batch_isolation_under_final_write_success
    (batch : List (SqsRecord × RecordWorld)) (store : Store)
    (hsafe : ∀ rw ∈ batch, recordSafe rw) :
    (processor_handler batch store).statusCode = 200 ∧
    (processor_handler batch store).outcomes.length = batch.length := by
  have h := processor_run_all_attempted batch store [] [] hsafe
  simpa [processor_handler] using h

/-- Witness for C7 amended: a batch where the first item's downstream
call fails is still fully attempted — both items get an outcome and the
handler returns 200. -/
theorem batch_isolation_under_final_write_success_instance :
    (processor_handler [(exampleRecord, apiFailWorld), (siblingRecord, okWorld)]
        []).statusCode = 200 ∧
    (processor_handler [(exampleRecord, apiFailWorld), (siblingRecord, okWorld)]
        []).outcomes.length = 2 :=
  batch_isolation_under_final_write_success
    [(exampleRecord, apiFailWorld), (siblingRecord, okWorld)] [] (by decide)

/-- The canonical-order model of python set intersection has, as a set,
exactly the elements common to both lists. -/
theorem overlap_list_toFinset (a b : List String) :
    ((a.dedup).filter (fun x => b.contains x)).toFinset
      = a.toFinset ∩ b.toFinset := by
  ext x
  simp [List.mem_filter, List.mem_dedup, List.elem_iff]

/-- C6: for the matches target, the derived overlapping-time-slots field
of `Match.from_input` equals, as a set, the intersection of the learner
and tutor time-slot lists, and it is unchanged (as a set) when either
input list is reordered or carries duplicates. -/
theorem overlap_field_is_set_intersection
    (s l t : String) (a b a' b' : List String)
    (ha : a.toFinset = a'.toFinset) (hb : b.toFinset = b'.toFinset) :
    (Match.from_input ⟨s, l, t, a, b⟩).overlapping_available_time_slots.toFinset
      = a.toFinset ∩ b.toFinset ∧
    (Match.from_input ⟨s, l, t, a, b⟩).overlapping_available_time_slots.toFinset
      = (Match.from_input
          ⟨s, l, t, a', b'⟩).overlapping_available_time_slots.toFinset := by
  constructor
  · simpa [Match.from_input] using overlap_list_toFinset a b
  · simp only [Match.from_input]
    rw [overlap_list_toFinset a b, overlap_list_toFinset a' b', ha, hb]

/-- Witness for C6: learner slots A,B,C,D (also permuted with a
duplicate) and tutor slots C,D,E (also permuted with a duplicate) give
exactly the overlap set containing C and D. -/
theorem overlap_field_is_set_intersection_instance :
    (Match.from_input ⟨"Approved", "L", "T", ["A", "B", "C", "D"],
        ["C", "D", "E"]⟩).overlapping_available_time_slots.toFinset
      = (["A", "B", "C", "D"] : List String).toFinset ∩
          (["C", "D", "E"] : List String).toFinset ∧
    (Match.from_input ⟨"Approved", "L", "T", ["A", "B", "C", "D"],
        ["C", "D", "E"]⟩).overlapping_available_time_slots.toFinset
      = (Match.from_input ⟨"Approved", "L", "T", ["D", "C", "B", "A", "A"],
          ["E", "E", "D", "C"]⟩).overlapping_available_time_slots.toFinset ∧
    (["A", "B", "C", "D"] : List String).toFinset ∩
        (["C", "D", "E"] : List String).toFinset = {"C", "D"} :=
  ⟨(overlap_field_is_set_intersection "Approved" "L" "T"
      ["A", "B", "C", "D"] ["C", "D", "E"] ["D", "C", "B", "A", "A"]
      ["E", "E", "D", "C"] (by decide) (by decide)).1,
   (overlap_field_is_set_intersection "Approved" "L" "T"
      ["A", "B", "C", "D"] ["C", "D", "E"] ["D", "C", "B", "A", "A"]
      ["E", "E", "D", "C"] (by decide) (by decide)).2,
   by decide⟩

/-- C10: the authorizer returns Allow exactly when the presented token —
after stripping an optional Bearer prefix — is non-empty, the secret was
retrieved, and the token equals the stored api_key (reading a missing
api_key as the empty string).  In particular an empty presented token is
always denied, even when the stored api_key is itself empty or
missing. -/
theorem authorizer_allow_iff_token_matches
    (tok : String) (fetch : SecretFetch) :
    (authorizer_handler tok fetch = .Allow ↔
      stripBearer tok ≠ "" ∧
        ∃ apiKey, fetch = .success apiKey ∧
          apiKey.getD "" = stripBearer tok) ∧
    (stripBearer tok = "" → authorizer_handler tok fetch = .Deny) := by
  cases fetch with
  | failure =>
    refine ⟨?_, fun _ => rfl⟩
    simp [authorizer_handler]
  | success apiKey =>
    constructor
    · simp only [authorizer_handler]
      split_ifs with h
      · simp only [Bool.and_eq_true, decide_eq_true_eq] at h
        constructor
        · intro _
          exact ⟨h.2, apiKey, rfl, h.1.symm⟩
        · intro _
          rfl
      · simp only [Bool.and_eq_true, decide_eq_true_eq, not_and] at h
        constructor
        · intro hc
          cases hc
        · rintro ⟨hne, k, hk, hkey⟩
          cases hk
          exact absurd hne (h hkey.symm)
    · intro hempty
      simp [authorizer_handler, hempty]

/-- Witness for C10: an empty token is denied even against an empty
stored api_key, and a matching non-empty token is allowed. -/
theorem authorizer_allow_iff_token_matches_instance :
    authorizer_handler "Bearer " (.success (some "")) = .Deny ∧
    authorizer_handler "Bearer k1" (.success (some "k1")) = .Allow :=
  ⟨(authorizer_allow_iff_token_matches "Bearer " (.success (some ""))).2 (by decide),
   (authorizer_allow_iff_token_matches "Bearer k1" (.success (some "k1"))).1.mpr
     ⟨by decide, some "k1", rfl, by decide⟩⟩

end Potencia
